import Mathlib

/-!
Verification of the FLBW data-transformation engine (`streamlit_app.py`
`transform_data`, and `pages/dashboard2.py` `load_data`).

The pandas pipeline is embedded shallowly: a `DataFrame` row becomes a
`RawRecord` whose fields are `Option String` (a missing cell is `none`, which
models a pandas `NaN`), the amount column is modelled as `Option Int`
(`pd.to_numeric(..., errors="coerce")` yields `none` on non-numeric input),
and the pivot is modelled as explicit grouping over a list of records.
Python's `str()` of a `NaN` cell renders `"nan"`, modelled by `pyStr`.
-/

/-- Python `str(cell)` for a possibly missing cell: `str(nan) = "nan"`. -/
def pyStr (x : Option String) : String := x.getD "nan"

/-- `pre` is a prefix of `s` (Python `s.startswith(pre)`), computed on the
character lists so that the kernel can evaluate it. -/
def strStartsWith (s pre : String) : Bool := pre.data.isPrefixOf s.data

/-- Python `s.upper()` (ASCII case mapping, the alphabet of the source's
keyword list and codes). -/
def strToUpper (s : String) : String := String.mk (s.data.map Char.toUpper)

/-- Python `s.strip()`: drop leading and trailing whitespace. -/
def strTrim (s : String) : String :=
  String.mk (((s.data.dropWhile Char.isWhitespace).reverse.dropWhile Char.isWhitespace).reverse)

/-- `s.split(".")` keeping empty segments, as `str.split`/`String.splitOn`
do. -/
def splitOnDotAux : List Char → List Char → List String
  | [], acc => [String.mk acc.reverse]
  | c :: cs, acc =>
    if c = '.' then String.mk acc.reverse :: splitOnDotAux cs []
    else splitOnDotAux cs (c :: acc)

def splitOnDot (s : String) : List String := splitOnDotAux s.data []

/-- Numeric value of an all-digit string, else `none` (Python `int(s)` on the
strings `strptime` accepts). -/
def toNatOpt (s : String) : Option Nat :=
  if !s.data.isEmpty && s.data.all Char.isDigit then
    some (s.data.foldl (fun acc c => acc * 10 + (c.toNat - 48)) 0)
  else none

/-- `pd.notna(x) and str(x).strip() != ""` — the non-blank test that guards
both the `Anwesenheit` category and the `Arbeit Unproduktiv` status. -/
def notBlank (x : Option String) : Bool :=
  match x with
  | none => false
  | some s => !(strTrim s == "")

/-- Python's `pat in s` substring test. -/
def strContains (s pat : String) : Bool :=
  (List.range (s.data.length + 1)).any fun i => pat.data.isPrefixOf (s.data.drop i)

/-- Accumulates maximal runs of ASCII digits (source inputs are SAP numeric
identifiers, so `\d` is modelled as an ASCII digit). -/
def digitRunsAux : List Char → List Char → List String
  | [], acc => if acc.isEmpty then [] else [String.mk acc.reverse]
  | c :: cs, acc =>
    if c.isDigit then digitRunsAux cs (c :: acc)
    else if acc.isEmpty then digitRunsAux cs []
    else String.mk acc.reverse :: digitRunsAux cs []

/-- `re.findall(r"\d+", text)`: the maximal digit runs of `text`, in order of
appearance. -/
def digitRuns (s : String) : List String := digitRunsAux s.data []

/-- Python `s[-n:]` on a string (for `n = 0`, `s[-0:]` is all of `s`). -/
def takeLast (s : String) (n : Nat) : String :=
  if n = 0 then s else String.mk (s.data.drop (s.data.length - n))

/-- The loop of `extract_number` over the digit runs: the first run is
inspected first; equal length returns it, greater length returns its trailing
digits, shorter runs are skipped. -/
def extract_number_go (n : Nat) : List String → String
  | [] => "Unbekannte Kontierungsnummer"
  | m :: ms =>
    if m.length = n then m
    else if m.length > n then takeLast m n
    else extract_number_go n ms

/-- `extract_number(text, num_digits)` from `streamlit_app.py` lines 147-164. -/
def extract_number (text : String) (numDigits : Nat := 7) : String :=
  extract_number_go numDigits (digitRuns text)

/-- `possible_keywords` of `find_keyword` (lines 176-180). -/
def possible_keywords : List String :=
  ["ABW", "ÄAUF", "EINK", "INNO", "IHE", "MFK", "MDBI", "MON", "NORM",
   "OBS", "RCM", "REST", "SICH", "STADA", "STUD", "SUE", "SYM", "PSUP",
   "PROD", "IND", "MDG", "ANA", "INST", "ADM", "KURE", "CLR", "CAD", "IHS"]

/-- `find_keyword` (lines 166-185): first keyword that prefixes the
upper-cased, trimmed text, else `"XXX"`.  Upper-casing is `String.toUpper`
(ASCII); the keyword inputs of the source are ASCII service short-texts. -/
def find_keyword (text : String) : String :=
  (possible_keywords.find? fun kw => strStartsWith (strTrim (strToUpper text)) kw).getD "XXX"

/-- Gregorian month lengths, used to validate a parsed date the way
`pd.to_datetime` does. -/
def daysInMonth (y m : Nat) : Nat :=
  if m = 2 then (if (y % 4 = 0 && !(y % 100 = 0)) || y % 400 = 0 then 29 else 28)
  else if m = 4 || m = 6 || m = 9 || m = 11 then 30
  else 31

/-- `pd.to_datetime(s, format="%d.%m.%Y", errors="coerce")` (line 65): the
string must be day.month.year with numeric fields of the strptime widths and a
calendar-valid day; any failure coerces to `none` (pandas `NaT`). -/
def parseDate (s : String) : Option (Nat × Nat × Nat) :=
  match splitOnDot s with
  | [ds, ms, ys] =>
    match toNatOpt ds, toNatOpt ms, toNatOpt ys with
    | some d, some m, some y =>
      if 1 ≤ m && m ≤ 12 && 1 ≤ d && d ≤ daysInMonth y m &&
         1 ≤ ds.length && ds.length ≤ 2 && 1 ≤ ms.length && ms.length ≤ 2 &&
         1 ≤ ys.length && ys.length ≤ 4
      then some (d, m, y) else none
    | _, _, _ => none
  | _ => none

/-- `ict_order_numbers` (lines 77-82). -/
def ict_order_numbers : List String :=
  ["170232862", "170232863", "170232864", "170232865", "170232866",
   "170232867", "170232869", "170233584", "170423823", "170423824",
   "170423825", "170423826", "170423827", "170423828", "170423829",
   "170424380", "170424465", "170424663", "170322127"]

/-- `flbw_order_numbers` (lines 85-88). -/
def flbw_order_numbers : List String :=
  ["170320380", "170320381", "170320382", "170320373", "170319824",
   "152319457", "152318870", "170223872", "170319986", "170424330", "170320783"]

/-- `abwesenheitsarten` (lines 92-117): code ↦ (label, isPresentFlag). -/
def abwesenheitsarten : List (String × String × Nat) :=
  [("0100", ("Ferien", 1)), ("0110", ("Treueprämie (Zeit)", 1)), ("0120", ("Flexa-Urlaub", 1)), ("0130", ("Vorruhestandurlaub", 1)),
   ("0200", ("Krankheit", 1)), ("0201", ("Krank teilarbeitsfähig", 1)), ("0210", ("Krankheit (Militär)", 1)), ("0211", ("K (Mil) teilarbeitsfähig", 1)),
   ("0220", ("Quarantäne", 1)), ("0222", ("COVID Kinderbetreuung", 1)), ("0225", ("COVID Risikogruppe", 1)), ("0300", ("Militär/Zivilschutz", 1)),
   ("0400", ("Unfall (NBU)", 1)), ("0401", ("NBU teilarbeitsfähig", 1)), ("0405", ("Unfall (BU)", 1)), ("0406", ("BU teilarbeitsfähig", 1)),
   ("0410", ("Unfall (Militär)", 1)), ("0411", ("Unfall (Mil) teilarbeit", 1)), ("0800", ("Kompensation Pikett", 1)), ("0900", ("Kompensation Überzeit", 1)),
   ("0910", ("Komp. Überzeit 2", 1)), ("0915", ("Komp. Überstunden (ÜS)", 1)), ("0917", ("Komp. Ausdeh. Höchst-AZ", 1)), ("0920", ("Komp. Nachtdienst 3", 1)),
   ("0925", ("Komp. Gleitzeit", 1)), ("0940", ("Überzeit", 1)), ("0950", ("Seminar/Kurs", 1)), ("0960", ("Reisezeitgutschrift", 1)), ("0970", ("Freistellung PeKo", 1)),
   ("1000", ("ab.freier Tag (VJ)", 1)), ("1010", ("Ausgleichstag", 1)), ("1020", ("Ruhetag", 1)), ("1030", ("Komp. CTS", 1)), ("1040", ("Teilzeittag \"80/20\"", 1)),
   ("1050", ("Teilzeittag", 1)), ("1060", ("Teilzeittag", 1)), ("1100", ("Auszeit 25", 1)), ("1110", ("Auszeit 40", 1)), ("1120", ("Auszeit in Tagen", 1)),
   ("1125", ("Auszeit pro rata", 1)), ("1140", ("Ind. bez. Urlaub IBU", 1)), ("1150", ("Selbstlernzeit", 1)), ("8710", ("Weiterbildungsurlaub", 1)),
   ("8712", ("ausserschul.Jugendarbeit", 1)), ("8713", ("Arbeitsenthebung", 1)), ("8714", ("Freisetzung", 1)), ("8715", ("Mutterschutz", 1)),
   ("8716", ("Adoptionsurlaub", 1)), ("8717", ("Urlaub Berufsbildung", 1)), ("8718", ("Frei nach Personenunfall", 1)), ("8719", ("Untersuch SUVA", 1)),
   ("8720", ("Unbezahlter Urlaub", 1)), ("8721", ("Freistellung", 1)), ("875A", ("Hochzeit", 1)), ("875B", ("Vaterschaftsurlaub", 1)),
   ("875C", ("Tod Ehegatte,Eltern,Kind", 1)), ("875D", ("Tod SchEltern,Geschwister", 1)), ("875E", ("Tod GrEltern/UrGrEltern", 1)),
   ("875F", ("Familiäre Gründe", 1)), ("875G", ("Pflege der Kinder", 1)), ("875H", ("Stellenbewerbungen", 1)), ("875I", ("Wohnungswechsel", 1)),
   ("875J", ("Vorsprache b. Behörden", 1)), ("875K", ("Ausübung öffentl. Ämter", 1)), ("875L", ("Arbeitsjubiläum", 1)), ("875M", ("Entlassung Wehrpflicht", 1)),
   ("875N", ("Vaterschaftsurlaub", 1)), ("875O", ("Orientierungstag Militär", 1)), ("876A", ("Feuerwehr/Einsatz b.Alarm", 1)), ("876B", ("Feuerwehr/Kurs", 1)),
   ("876C", ("Aktiver Spitzensport", 1)), ("876D", ("Ltg. Behindertensport", 1)), ("876E", ("Wohnungssuche", 1)), ("876F", ("1.Mai Veranstaltungen", 0)),
   ("876G", ("Bild.Veranstalt.Gewerksch", 0)), ("876H", ("Freiwilliger Zivilschutz", 0)), ("876I", ("Jugend u.Sport", 0)), ("877A", ("Urlaubsscheck 1/1", 0)),
   ("877B", ("Urlaubsscheck 1/2", 0)), ("878A", ("Mutterschaftsurlaub", 0)), ("879A", ("Erziehungsurlaub", 0)), ("879B", ("Gesetzl. Betr.Urlaub Kind", 0)),
   ("9001", ("Leistung (SPX)", 0)), ("9070", ("Piketteinsatz (SPX)", 0)), ("9100", ("Pause bez. (30%) (SPX)", 0)), ("9150", ("Pause unbezahlt (SPX)", 0)),
   ("9270", ("Arbeitsunterbrech. (SPX)", 0)), ("9U00", ("Unterbruch ARF (Ums)", 0)), ("9U01", ("Unterbruch FLU (Ums)", 0)), ("I-12", ("Führung/Coaching", 0)),
   ("I-14", ("f.-int. Team-/Fachs./KT", 0)), ("I-15", ("f.-üb. Team-/Fachs./KT", 0)), ("I-16", ("Offerten für Dritte", 0)), ("I-17", ("IT-Störungen/Unterbrüche", 0)),
   ("I-18", ("PEKO", 0)), ("I-19", ("Uebriges", 0))]

/-- Keys of `arbeitszeit_codes = {code: name for code, (name, flag) in
abwesenheitsarten.items() if flag == 1}` (line 120). -/
def arbeitszeit_codes : List String :=
  (abwesenheitsarten.filter fun e => e.2.2 == 1).map Prod.fst

/-- Keys of `abwesenheits_codes` (flag = 0 entries, line 123). -/
def abwesenheits_codes : List String :=
  (abwesenheitsarten.filter fun e => e.2.2 == 0).map Prod.fst

/-- `arbeitszeit_leistungsarten` (lines 126-128). -/
def arbeitszeit_leistungsarten : List String :=
  ["LA1620", "LA1611", "LA1402", "LA1619", "LA1617", "LA1002", "LA1615", "LA1824", "LA1825"]

/-- One row of the renamed DataFrame.  A `none` field is a missing (`NaN`)
cell; `betrag` is the amount after `pd.to_numeric(..., errors="coerce")`,
`none` when the raw cell was not numeric. -/
structure RawRecord where
  organisationseinheit : Option String
  uNummer : Option String
  name : Option String
  datum : Option String
  kontierungsbeschreibung : Option String
  kontierungstyp : Option String
  kontierungsnummer : Option String
  leistungKurztext : Option String
  leistungsart : Option String
  empfKostenstelle : Option String
  projektdefinition : Option String
  lohnartLangtext : Option String
  betrag : Option Int
  textAnAbArt : Option String
  deriving DecidableEq, Repr

/-- `df["Betrag"] = pd.to_numeric(...).fillna(0)` (line 74). -/
def betragVal (r : RawRecord) : Int := r.betrag.getD 0

/-- `df["Monat"] = df["Datum"].dt.month` (line 66): the calendar month of the
parsed booking date; `none` when the date did not parse. -/
def monat (r : RawRecord) : Option Nat :=
  (r.datum.bind parseDate).map fun dmy => dmy.2.1

/-- The category cascade of lines 131-144, first matching rule wins. -/
def kategorie (r : RawRecord) : String :=
  if strStartsWith (pyStr r.kontierungsbeschreibung) "PP-UHR ICT" ||
     ict_order_numbers.contains (pyStr r.kontierungsnummer) then "ICT"
  else if strContains (pyStr r.kontierungsbeschreibung) "FLBW" ||
          flbw_order_numbers.contains (pyStr r.kontierungsnummer) then "FLBW"
  else if strContains (pyStr r.kontierungstyp) "PSP" then "PSP"
  else if notBlank r.lohnartLangtext then "Anwesenheit"
  else if arbeitszeit_leistungsarten.contains (pyStr r.leistungsart) &&
          arbeitszeit_codes.contains (pyStr r.textAnAbArt) then "Arbeitsleistung"
  else if arbeitszeit_leistungsarten.contains (pyStr r.leistungsart) &&
          abwesenheits_codes.contains (pyStr r.textAnAbArt) then "Abwesenheit"
  else "Anderes"

/-- The sub-category cascade of lines 188-199. -/
def unterkategorie (r : RawRecord) : String :=
  if kategorie r = "ICT" then extract_number (pyStr r.kontierungsnummer) 8
  else if kategorie r = "FLBW" then find_keyword (pyStr r.leistungKurztext)
  else if kategorie r = "PSP" then extract_number (pyStr r.kontierungsnummer) 7
  else if kategorie r = "Arbeitsleistung" ∨ kategorie r = "Abwesenheit" ∨
          kategorie r = "Anwesenheit" then pyStr r.kontierungsbeschreibung
  else ""

/-- `Unterkategorie Name` (lines 202-205).  For a PSP row the source runs
`row["Unterkategorie"] + " " + row["Projektdefinition"]` before any `fillna`;
when `Projektdefinition` is a missing cell that is a Python `str + float`
concatenation, which raises `TypeError` and aborts the batch — modelled as
`.error`. -/
def unterkategorieName (r : RawRecord) : Except String String :=
  if kategorie r = "PSP" then
    match r.projektdefinition with
    | some p => .ok (unterkategorie r ++ " " ++ p)
    | none => .error "TypeError: can only concatenate str (not float) to str"
  else .ok (unterkategorie r)

/-- `re.fullmatch(r"2\d{3}", s)`: the character `'2'` followed by exactly
three digits, matching the whole string. -/
def fullmatch2ddd (s : String) : Bool :=
  match s.data with
  | c0 :: c1 :: c2 :: c3 :: [] => c0 == '2' && c1.isDigit && c2.isDigit && c3.isDigit
  | _ => false

/-- `status_logik` (lines 208-222). -/
def status_logik (r : RawRecord) : String :=
  if notBlank r.lohnartLangtext then "Arbeit Unproduktiv"
  else if fullmatch2ddd (strTrim (pyStr r.textAnAbArt)) then "Arbeit"
  else "Abwesend"

/-- The fixed grouping-key tuple `static_cols` (lines 227-232), as it stands
right before the pivot: raw text fields after `fillna("Unbekannt")`
(lines 234-236), `Text AnAbArt` already overwritten by the status (line 224),
and the three derived categorisation fields. -/
structure GroupKey where
  organisationseinheit : String
  uNummer : String
  name : String
  kontierungsbeschreibung : String
  kontierungstyp : String
  kontierungsnummer : String
  leistungKurztext : String
  leistungsart : String
  empfKostenstelle : String
  projektdefinition : String
  lohnartLangtext : String
  textAnAbArt : String
  kategorie : String
  unterkategorie : String
  unterkategorieName : String
  deriving DecidableEq, Repr

/-- Build the grouping key of one record, given its already computed
`Unterkategorie Name`.  `EmpfKostenstelle` additionally passes through
`fillna("").astype(str)` (line 239), which is the identity after the
`fillna("Unbekannt")` of line 236. -/
def fillKey (r : RawRecord) (ukName : String) : GroupKey :=
  { organisationseinheit := r.organisationseinheit.getD "Unbekannt"
    uNummer := r.uNummer.getD "Unbekannt"
    name := r.name.getD "Unbekannt"
    kontierungsbeschreibung := r.kontierungsbeschreibung.getD "Unbekannt"
    kontierungstyp := r.kontierungstyp.getD "Unbekannt"
    kontierungsnummer := r.kontierungsnummer.getD "Unbekannt"
    leistungKurztext := r.leistungKurztext.getD "Unbekannt"
    leistungsart := r.leistungsart.getD "Unbekannt"
    empfKostenstelle := r.empfKostenstelle.getD "Unbekannt"
    projektdefinition := r.projektdefinition.getD "Unbekannt"
    lohnartLangtext := r.lohnartLangtext.getD "Unbekannt"
    textAnAbArt := status_logik r
    kategorie := kategorie r
    unterkategorie := unterkategorie r
    unterkategorieName := ukName }

/-- Grouping key of a record; `.error` when the `Unterkategorie Name` step of
line 203 raises. -/
def keyOf (r : RawRecord) : Except String GroupKey :=
  (unterkategorieName r).map (fillKey r)

/-- One keyed record as it enters the pivot: grouping key, month bucket
(`none` when the date did not parse), amount. -/
def Keyed : Type := GroupKey × Option Nat × Int

/-- The per-row derivations of `transform_data` applied to the whole table;
like `DataFrame.apply`, the first raising row aborts the batch. -/
def keyedRecords : List RawRecord → Except String (List Keyed)
  | [] => .ok []
  | r :: rs =>
    match keyOf r with
    | .error e => .error e
    | .ok k =>
      match keyedRecords rs with
      | .error e => .error e
      | .ok xs => .ok ((k, monat r, betragVal r) :: xs)

/-- One cell of the pivot: the summed amount of the records of group `k`
whose booking date fell in month `m` (`aggfunc="sum"`, `fill_value=0`). -/
def cell (xs : List Keyed) (k : GroupKey) (m : Nat) : Int :=
  ((xs.filter fun x => x.1 == k && x.2.1 == some m).map fun x => x.2.2).sum

/-- The month columns the pivot emits: exactly the months that occur in the
data, in calendar order (`pivot_table` drops records whose `Monat` is `NaN`,
and the emitted columns are sorted chronologically, line 262). -/
def monthsPresent (xs : List Keyed) : List Nat :=
  (List.range 13).filter fun j => xs.any fun x => x.2.1 == some j

/-- The grouping keys that own at least one record with a parsed month —
`pivot_table` silently drops `NaN`-month records, so a key whose records all
lack a month produces no output row. -/
def distinctKeys (xs : List Keyed) : List GroupKey :=
  (xs.filterMap fun x => if x.2.1.isSome then some x.1 else none).dedup

/-- One aggregated output row: grouping key, the emitted month columns with
their values, and the `ytd` column computed afterwards (line 265) as the sum
of the emitted month columns. -/
structure AggRow where
  key : GroupKey
  cells : List (Nat × Int)
  ytd : Int
  deriving DecidableEq, Repr

def aggRowOf (xs : List Keyed) (k : GroupKey) : AggRow :=
  { key := k
    cells := (monthsPresent xs).map fun m => (m, cell xs k m)
    ytd := ((monthsPresent xs).map fun m => cell xs k m).sum }

/-- `pivot_table(index=static_cols, columns="Monat", values="Betrag",
aggfunc="sum", fill_value=0)` followed by the `ytd` column (lines 242-265). -/
def pivotRows (xs : List Keyed) : List AggRow :=
  (distinctKeys xs).map (aggRowOf xs)

/-- `transform_data` (lines 33-267) restricted to its engine core: per-record
classification, status overwrite, key fill-in and pivot. -/
def transform_data (rs : List RawRecord) : Except String (List AggRow) :=
  (keyedRecords rs).map pivotRows

/-- The spec's reading of `extract_number`: an exact-length run anywhere in
the text is claimed to beat a truncated longer run anywhere in the text. -/
def extract_number_claimed (text : String) (n : Nat) : String :=
  match (digitRuns text).find? fun m => m.length == n with
  | some m => m
  | none =>
    match (digitRuns text).find? fun m => decide (m.length > n) with
    | some m => takeLast m n
    | none => "Unbekannte Kontierungsnummer"

/-- What the code actually implements: the first run of length at least `n`
wins outright — returned whole on an exact match, truncated to its trailing
`n` digits when longer. -/
def extract_number_amended_spec (text : String) (n : Nat) : String :=
  match (digitRuns text).find? fun m => decide (m.length ≥ n) with
  | some m => if m.length = n then m else takeLast m n
  | none => "Unbekannte Kontierungsnummer"

/-- Flag lookup of the spec's rule 5: `AttendanceText` in the
code→(label, isPresentFlag) dictionary. -/
def abw_lookup (code : String) : Option Nat :=
  (abwesenheitsarten.lookup code).map fun v => v.2

/-- The spec's §4.1 ordered rule list, first match wins. -/
def spec_rules : List ((RawRecord → Bool) × String) :=
  [ (fun r => strStartsWith (pyStr r.kontierungsbeschreibung) "PP-UHR ICT" ||
       ict_order_numbers.contains (pyStr r.kontierungsnummer), "ICT"),
    (fun r => strContains (pyStr r.kontierungsbeschreibung) "FLBW" ||
       flbw_order_numbers.contains (pyStr r.kontierungsnummer), "FLBW"),
    (fun r => strContains (pyStr r.kontierungstyp) "PSP", "PSP"),
    (fun r => notBlank r.lohnartLangtext, "Anwesenheit"),
    (fun r => arbeitszeit_leistungsarten.contains (pyStr r.leistungsart) &&
       (abw_lookup (pyStr r.textAnAbArt) == some 1), "Arbeitsleistung"),
    (fun r => arbeitszeit_leistungsarten.contains (pyStr r.leistungsart) &&
       (abw_lookup (pyStr r.textAnAbArt) == some 0), "Abwesenheit") ]

/-- Evaluate an ordered rule list top-down, first matching rule wins,
fallback `"Anderes"`. -/
def firstMatch (r : RawRecord) : List ((RawRecord → Bool) × String) → String
  | [] => "Anderes"
  | (p, c) :: rest => if p r then c else firstMatch r rest

/-- The classifier as the spec words it: the ordered rule list of §4.1. -/
def classify_spec (r : RawRecord) : String := firstMatch r spec_rules

/-- The fixed category enum. -/
def categories : List String :=
  ["ICT", "FLBW", "PSP", "Anwesenheit", "Arbeitsleistung", "Abwesenheit", "Anderes"]

/-- The status resolver as the spec words it: non-blank wage type first, else
a 4-character numeric code beginning with `'2'`, else absent. -/
def resolve_status_spec (r : RawRecord) : String :=
  if notBlank r.lohnartLangtext then "Arbeit Unproduktiv"
  else
    if ((strTrim (pyStr r.textAnAbArt)).data.length == 4 &&
        (strTrim (pyStr r.textAnAbArt)).data.head? == some '2' &&
        (strTrim (pyStr r.textAnAbArt)).data.all Char.isDigit) then "Arbeit"
    else "Abwesend"

/-- A concrete FLBW-classified record with a January booking date. -/
def rFlbwJan : RawRecord :=
  { organisationseinheit := some "OE1"
    uNummer := some "U1"
    name := some "Muster"
    datum := some "05.01.2024"
    kontierungsbeschreibung := some "FLBW Projekt"
    kontierungstyp := some "X"
    kontierungsnummer := some "0"
    leistungKurztext := some "ABW etwas"
    leistungsart := some "L"
    empfKostenstelle := some "K1"
    projektdefinition := some "P1"
    lohnartLangtext := none
    betrag := some 10
    textAnAbArt := some "2001" }

/-- The grouping key of `rFlbwJan` after status overwrite and `fillna`. -/
def kFlbwJan : GroupKey :=
  { organisationseinheit := "OE1"
    uNummer := "U1"
    name := "Muster"
    kontierungsbeschreibung := "FLBW Projekt"
    kontierungstyp := "X"
    kontierungsnummer := "0"
    leistungKurztext := "ABW etwas"
    leistungsart := "L"
    empfKostenstelle := "K1"
    projektdefinition := "P1"
    lohnartLangtext := "Unbekannt"
    textAnAbArt := "Arbeit"
    kategorie := "FLBW"
    unterkategorie := "ABW"
    unterkategorieName := "ABW" }

deriving instance DecidableEq for Except

/-- The record of the C3 counterexample: same grouping key as `rFlbwJan` but
an unparsable booking date. -/
def rFlbwBad : RawRecord :=
  { rFlbwJan with datum := some "kein Datum", betrag := some 5 }

/-- A PSP-classified record whose `Projektdefinition` cell is missing. -/
def rPspNoProj : RawRecord :=
  { organisationseinheit := some "OE2"
    uNummer := some "U2"
    name := some "Beispiel"
    datum := some "07.03.2024"
    kontierungsbeschreibung := some "Bauprojekt"
    kontierungstyp := some "PSP-Element"
    kontierungsnummer := some "X7654321"
    leistungKurztext := some "NORM"
    leistungsart := some "L"
    empfKostenstelle := some "K2"
    projektdefinition := none
    lohnartLangtext := none
    betrag := some 2
    textAnAbArt := some "0100" }

/-- A record with a missing (`NaN`) `EmpfKostenstelle`, otherwise like an
ordinary FLBW booking in February. -/
def rNoKostenstelle : RawRecord :=
  { rFlbwJan with empfKostenstelle := none, datum := some "10.02.2024", betrag := some 3 }

/-- The grouping key of `rNoKostenstelle`: the missing cost centre has become
the sentinel. -/
def kNoKostenstelle : GroupKey :=
  { kFlbwJan with empfKostenstelle := "Unbekannt" }

/-- A record whose booking date string is no calendar date (February 31st). -/
def rFeb31 : RawRecord :=
  { rFlbwJan with datum := some "31.02.2024" }

/-- An attendance-override record: non-blank wage type, no ICT/FLBW/PSP
match. -/
def rAnwesenheit : RawRecord :=
  { organisationseinheit := some "OE3"
    uNummer := some "U3"
    name := some "Dritte"
    datum := some "02.04.2024"
    kontierungsbeschreibung := some "Bau"
    kontierungstyp := some "K"
    kontierungsnummer := some "1"
    leistungKurztext := some "MON"
    leistungsart := some "L"
    empfKostenstelle := some "K3"
    projektdefinition := some "P3"
    lohnartLangtext := some "Spätschicht"
    betrag := some 1
    textAnAbArt := some "0100" }

def kAnwesenheit : GroupKey :=
  { organisationseinheit := "OE3"
    uNummer := "U3"
    name := "Dritte"
    kontierungsbeschreibung := "Bau"
    kontierungstyp := "K"
    kontierungsnummer := "1"
    leistungKurztext := "MON"
    leistungsart := "L"
    empfKostenstelle := "K3"
    projektdefinition := "P3"
    lohnartLangtext := "Spätschicht"
    textAnAbArt := "Arbeit Unproduktiv"
    kategorie := "Anwesenheit"
    unterkategorie := "Bau"
    unterkategorieName := "Bau" }

/-- The aggregated row `transform_data [rAnwesenheit]` produces. -/
def rowAnwesenheit : AggRow := { key := kAnwesenheit, cells := [(4, 1)], ytd := 1 }

/-- Same grouping key as `rFlbwJan`, booked in March of two different
years. -/
def rMaerz2024 : RawRecord := { rFlbwJan with datum := some "15.03.2024" }

def rMaerz2025 : RawRecord := { rFlbwJan with datum := some "20.03.2025", betrag := some 2 }

/-- The twelve month-column names in calendar order (`months` in
`pages/dashboard2.py` and `month_names` in `streamlit_app.py`). -/
def month_names_list : List String :=
  ["Januar", "Februar", "März", "April", "Mai", "Juni",
   "Juli", "August", "September", "Oktober", "November", "Dezember"]

/-- The categorical code `pd.Categorical(..., categories=months, ordered=True)`
attaches to a month name: its calendar position. -/
def monthCode (m : String) : Nat := month_names_list.indexOf m

/-- Plain lexicographic order on character lists — the string order a sort on
the raw month-name column would use. -/
def lexLt : List Char → List Char → Bool
  | [], [] => false
  | [], _ :: _ => true
  | _ :: _, [] => false
  | a :: as, b :: bs => if a < b then true else if b < a then false else lexLt as bs

/-- One row of the wide `transformed_data` table handed to the dashboard:
its identifying (non-month, non-ytd) column values and its month-column
values. -/
structure WideRow where
  ident : List String
  vals : List (String × Int)
  deriving DecidableEq, Repr

/-- One melted row: identifying values, month name, the attached calendar
code, and the value. -/
structure LongRow where
  ident : List String
  monat : String
  monatCode : Nat
  wert : Int
  deriving DecidableEq, Repr

/-- A wide table: the month columns it has, and its rows. -/
structure WideTable where
  cols : List String
  rows : List WideRow

/-- One melted row: the wide row's identifying values, one month column's
name with its categorical code, and that column's value. -/
def meltRow (mn : String) (r : WideRow) : LongRow :=
  { ident := r.ident
    monat := mn
    monatCode := monthCode mn
    wert := (r.vals.lookup mn).getD 0 }

/-- `load_data`'s melt (`pages/dashboard2.py` lines 7-19):
`df.melt(id_vars=…, value_vars=months, var_name="Monat", value_name="Wert")`
followed by the ordered categorical month.  pandas `melt` stacks one block
per `value_var` in list order, and raises `KeyError` when any listed
`value_var` is not a column of the frame. -/
def load_data_melt (t : WideTable) : Except String (List LongRow) :=
  if month_names_list.all fun m => t.cols.contains m then
    .ok (month_names_list.flatMap fun m => t.rows.map (meltRow m))
  else .error "KeyError: value_vars are not present in the DataFrame"

/-- A wide aggregated table that has only a `Januar` column (the transform
emits only the months present in the input). -/
def tJanuarOnly : WideTable :=
  { cols := ["Januar"], rows := [{ ident := ["row1"], vals := [("Januar", 5)] }] }

/-- A wide table with all twelve month columns and one row. -/
def r12 : WideRow :=
  { ident := ["a"],
    vals := [("Januar", 1), ("Februar", 2), ("März", 3), ("April", 4),
             ("Mai", 5), ("Juni", 6), ("Juli", 7), ("August", 8),
             ("September", 9), ("Oktober", 10), ("November", 11), ("Dezember", 12)] }

def t12 : WideTable := { cols := month_names_list, rows := [r12] }

/-- The melt of `t12`: one long row per month, in calendar order. -/
def L12 : List LongRow :=
  [{ ident := ["a"], monat := "Januar", monatCode := 0, wert := 1 },
   { ident := ["a"], monat := "Februar", monatCode := 1, wert := 2 },
   { ident := ["a"], monat := "März", monatCode := 2, wert := 3 },
   { ident := ["a"], monat := "April", monatCode := 3, wert := 4 },
   { ident := ["a"], monat := "Mai", monatCode := 4, wert := 5 },
   { ident := ["a"], monat := "Juni", monatCode := 5, wert := 6 },
   { ident := ["a"], monat := "Juli", monatCode := 6, wert := 7 },
   { ident := ["a"], monat := "August", monatCode := 7, wert := 8 },
   { ident := ["a"], monat := "September", monatCode := 8, wert := 9 },
   { ident := ["a"], monat := "Oktober", monatCode := 9, wert := 10 },
   { ident := ["a"], monat := "November", monatCode := 10, wert := 11 },
   { ident := ["a"], monat := "Dezember", monatCode := 11, wert := 12 }]

lemma extract_number_go_spec (n : Nat) (runs : List String) :
    extract_number_go n runs =
      (match runs.find? fun m => decide (m.length ≥ n) with
       | some m => if m.length = n then m else takeLast m n
       | none => "Unbekannte Kontierungsnummer") := by
  induction runs with
  | nil => rfl
  | cons m ms ih =>
    by_cases h1 : m.length = n
    · simp [extract_number_go, List.find?, h1]
    · by_cases h2 : m.length > n
      · simp [extract_number_go, List.find?, h1, h2, Nat.le_of_lt h2]
      · have h3 : ¬ (n ≤ m.length) := by omega
        simp [extract_number_go, List.find?, h1, h2, h3, ih]

/-- C1: the claimed precedence fails: in `"12345678 1234567"` with target
length 7, the exact-length run `"1234567"` exists, but the code answers with
the truncated tail of the earlier, longer run. -/
theorem C1_counterexample :
    extract_number "12345678 1234567" 7 = "2345678" ∧
    extract_number_claimed "12345678 1234567" 7 = "1234567" ∧
    extract_number "12345678 1234567" 7 ≠ extract_number_claimed "12345678 1234567" 7 := by
  refine ⟨by decide, by decide, by decide⟩

/-- C1 (amended): `extract_number` scans the maximal digit runs in order of
appearance and answers at the FIRST run of length at least `n` — returned
whole when its length is exactly `n`, else truncated to its trailing `n`
digits; the sentinel is returned only when no run has length at least `n`.
Exact-length matches take no precedence over earlier longer runs. -/
theorem C1_amended (text : String) (n : Nat) :
    extract_number text n = extract_number_amended_spec text n := by
  unfold extract_number extract_number_amended_spec
  exact extract_number_go_spec n (digitRuns text)

lemma fullmatch2ddd_eq (s : String) :
    fullmatch2ddd s =
      ((s.data.length == 4) && (s.data.head? == some '2') && s.data.all Char.isDigit) := by
  obtain ⟨l⟩ := s
  rcases l with _ | ⟨a, _ | ⟨b, _ | ⟨c, _ | ⟨d, _ | ⟨e, t⟩⟩⟩⟩⟩ <;> try rfl
  by_cases ha : a = '2'
  · simp [fullmatch2ddd, ha, Bool.and_assoc]
  · have hb : (a == '2') = false := beq_eq_false_iff_ne.mpr ha
    simp [fullmatch2ddd, hb]

lemma keyOf_eq_ok {r : RawRecord} {k : GroupKey} (h : keyOf r = .ok k) :
    ∃ u, unterkategorieName r = .ok u ∧ k = fillKey r u := by
  unfold keyOf at h
  cases hu : unterkategorieName r with
  | error e => rw [hu] at h; exact absurd h (by simp [Except.map])
  | ok u => rw [hu] at h; simp [Except.map] at h; exact ⟨u, rfl, h.symm⟩

/-- C4: the resolved status is `"Arbeit Unproduktiv"` exactly when the wage
type long text is present and non-blank after trimming, else `"Arbeit"`
exactly when the trimmed attendance text is a 4-character numeric code whose
first digit is 2, else `"Abwesend"`; and the resolved value overwrites the
`Text AnAbArt` field of the output grouping key. -/
theorem C4_status_resolver (r : RawRecord) (k : GroupKey) (h : keyOf r = .ok k) :
    status_logik r = resolve_status_spec r ∧ k.textAnAbArt = status_logik r := by
  constructor
  · unfold status_logik resolve_status_spec
    rw [fullmatch2ddd_eq]
  · obtain ⟨u, _, hk⟩ := keyOf_eq_ok h
    rw [hk]; rfl

theorem C4_witness :
    status_logik rFlbwJan = resolve_status_spec rFlbwJan ∧
    kFlbwJan.textAnAbArt = status_logik rFlbwJan :=
  C4_status_resolver rFlbwJan kFlbwJan rfl

lemma abw_keys_nodup : (abwesenheitsarten.map Prod.fst).Nodup := by decide

lemma mem_filtered_keys (l : List (String × String × Nat))
    (hnd : (l.map Prod.fst).Nodup) (t : Nat) (s : String) :
    (s ∈ (l.filter fun e => e.2.2 == t).map Prod.fst) ↔
      (l.lookup s).map (fun v => v.2) = some t := by
  induction l with
  | nil => simp
  | cons e l ih =>
    obtain ⟨k, v⟩ := e
    simp only [List.map_cons, List.nodup_cons] at hnd
    obtain ⟨hne, hnd2⟩ := hnd
    by_cases hs : s = k
    · subst hs
      have hbeq : (s == s) = true := beq_self_eq_true s
      by_cases ht : v.2 = t
      · simp [List.filter_cons, ht, List.lookup_cons, hbeq]
      · have ht2 : (v.2 == t) = false := beq_eq_false_iff_ne.mpr ht
        simp only [List.filter_cons, ht2, if_false, List.lookup_cons, hbeq, cond_eq_if,
          if_true, Option.map_some']
        constructor
        · intro hmem
          exfalso
          apply hne
          obtain ⟨x, hx, hxs⟩ := List.mem_map.mp hmem
          exact hxs ▸ List.mem_map_of_mem Prod.fst (List.mem_of_mem_filter hx)
        · intro h
          exact absurd (Option.some.inj h) ht
    · have hbeq : (s == k) = false := beq_eq_false_iff_ne.mpr hs
      by_cases ht : v.2 = t
      · simp only [List.filter_cons, ht, beq_self_eq_true, if_true, List.map_cons,
          List.mem_cons, List.lookup_cons, hbeq, cond_eq_if, if_false]
        rw [← ih hnd2]
        simp [hs]
      · have ht2 : (v.2 == t) = false := beq_eq_false_iff_ne.mpr ht
        simp only [List.filter_cons, ht2, if_false, List.lookup_cons, hbeq, cond_eq_if]
        exact ih hnd2

lemma arbeitszeit_codes_spec (s : String) :
    arbeitszeit_codes.contains s = (abw_lookup s == some 1) := by
  have h := mem_filtered_keys abwesenheitsarten abw_keys_nodup 1 s
  rw [Bool.eq_iff_iff, List.elem_iff, beq_iff_eq]
  exact h

lemma abwesenheits_codes_spec (s : String) :
    abwesenheits_codes.contains s = (abw_lookup s == some 0) := by
  have h := mem_filtered_keys abwesenheitsarten abw_keys_nodup 0 s
  rw [Bool.eq_iff_iff, List.elem_iff, beq_iff_eq]
  exact h

/-- C2: the classifier of lines 131-144 is exactly the spec's ordered rule
list evaluated top-down with first match winning (ICT, FLBW, PSP,
Anwesenheit, then the Arbeitsleistung/Abwesenheit split through the
isPresentFlag lookup, fallback `"Anderes"`), and it is total: every record
gets exactly one category from the fixed enum. -/
theorem C2_classifier (r : RawRecord) :
    kategorie r = classify_spec r ∧ kategorie r ∈ categories := by
  constructor
  · unfold classify_spec spec_rules kategorie
    simp only [firstMatch]
    rw [arbeitszeit_codes_spec, abwesenheits_codes_spec]
  · unfold kategorie
    repeat' split
    all_goals decide

lemma parseDate_month_le {s : String} {d m y : Nat} (h : parseDate s = some (d, m, y)) :
    m < 13 := by
  unfold parseDate at h
  split at h
  · split at h
    · split at h
      · rename_i cond
        simp only [Bool.and_eq_true, decide_eq_true_eq] at cond
        simp only [Option.some.injEq, Prod.mk.injEq] at h
        omega
      · exact absurd h (by simp)
    · exact absurd h (by simp)
  · exact absurd h (by simp)

lemma monat_lt_13 {r : RawRecord} {m : Nat} (h : monat r = some m) : m < 13 := by
  unfold monat at h
  cases hd : r.datum with
  | none => rw [hd] at h; exact absurd h (by simp)
  | some s =>
    rw [hd] at h
    simp only [Option.some_bind] at h
    cases hp : parseDate s with
    | none => rw [hp] at h; exact absurd h (by simp)
    | some dmy =>
      obtain ⟨d, m2, y⟩ := dmy
      rw [hp] at h
      simp only [Option.map_some', Option.some.injEq] at h
      exact h ▸ parseDate_month_le hp

lemma cell_cons (x : Keyed) (xs : List Keyed) (k : GroupKey) (m : Nat) :
    cell (x :: xs) k m =
      (if x.1 == k && x.2.1 == some m then x.2.2 else 0) + cell xs k m := by
  by_cases h : (x.1 == k && x.2.1 == some m) = true
  · simp [cell, List.filter_cons, h]
  · simp [cell, List.filter_cons, h]

lemma sum_map_ite_zero {α : Type} [DecidableEq α] (c : Int) (a₀ : α) (l : List α)
    (h : a₀ ∉ l) : (l.map fun a => if a₀ = a then c else 0).sum = 0 := by
  induction l with
  | nil => rfl
  | cons b l ih =>
    simp only [List.mem_cons, not_or] at h
    simp [List.sum_cons, h.1, ih h.2]

lemma sum_map_ite_single {α : Type} [DecidableEq α] (c : Int) (a₀ : α) (l : List α)
    (hnd : l.Nodup) (hm : a₀ ∈ l) : (l.map fun a => if a₀ = a then c else 0).sum = c := by
  induction l with
  | nil => cases hm
  | cons b l ih =>
    rw [List.nodup_cons] at hnd
    rcases List.mem_cons.mp hm with h | h
    · subst h
      simp [sum_map_ite_zero c a₀ l hnd.1]
    · have hne : a₀ ≠ b := by rintro rfl; exact hnd.1 h
      simp [hne, ih hnd.2 h]

lemma sum_cells_partition (k : GroupKey) (ms : List Nat) (hnd : ms.Nodup)
    (xs : List Keyed) (hcov : ∀ x ∈ xs, ∀ m, x.2.1 = some m → m ∈ ms) :
    (ms.map fun m => cell xs k m).sum =
      ((xs.filter fun x => x.1 == k && x.2.1.isSome).map fun x => x.2.2).sum := by
  induction xs with
  | nil =>
    simp [cell, List.map_const', List.sum_replicate]
  | cons x xs ih =>
    have hcov2 : ∀ x2 ∈ xs, ∀ m, x2.2.1 = some m → m ∈ ms :=
      fun x2 hx2 => hcov x2 (List.mem_cons_of_mem _ hx2)
    have hsplit := ih hcov2
    simp only [cell_cons]
    rw [List.sum_map_add, hsplit]
    cases hx21 : x.2.1 with
    | none =>
      have hb : ∀ m : Nat, ((none : Option Nat) == some m) = false := fun _ => rfl
      simp only [hb, Bool.and_false, Bool.false_eq_true, if_false]
      rw [List.filter_cons]
      simp [hx21, List.map_const', List.sum_replicate]
    | some m₀ =>
      have hmem : m₀ ∈ ms := hcov x (List.mem_cons_self x xs) m₀ hx21
      have hb : ∀ m : Nat, ((some m₀ : Option Nat) == some m) = (m₀ == m) := fun _ => rfl
      by_cases hk : (x.1 == k) = true
      · have hδ : ∀ m : Nat, (if x.1 == k && ((some m₀ : Option Nat) == some m)
              then x.2.2 else (0 : Int)) = (if m₀ = m then x.2.2 else 0) := by
          intro m
          rw [hb, hk]
          simp [beq_iff_eq]
        simp only [hδ]
        rw [sum_map_ite_single x.2.2 m₀ ms hnd hmem]
        rw [List.filter_cons]
        simp [hx21, beq_iff_eq.mp hk]
      · have hkf : (x.1 == k) = false := by simpa using hk
        simp only [hkf, Bool.false_and, Bool.false_eq_true, if_false]
        rw [List.filter_cons]
        simp [beq_eq_false_iff_ne.mp hkf, List.map_const', List.sum_replicate]

lemma keyedRecords_sound {rs : List RawRecord} {xs : List Keyed}
    (h : keyedRecords rs = .ok xs) :
    ∀ x ∈ xs, ∃ r ∈ rs, keyOf r = .ok x.1 ∧ monat r = x.2.1 ∧ betragVal r = x.2.2 := by
  induction rs generalizing xs with
  | nil =>
    unfold keyedRecords at h
    simp only [Except.ok.injEq] at h
    subst h
    intro x hx
    cases hx
  | cons r rs ih =>
    unfold keyedRecords at h
    cases hk : keyOf r with
    | error e => rw [hk] at h; cases h
    | ok k =>
      rw [hk] at h
      cases hrec : keyedRecords rs with
      | error e => rw [hrec] at h; cases h
      | ok xs2 =>
        rw [hrec] at h
        simp only [Except.ok.injEq] at h
        subst h
        intro x hx
        rcases List.mem_cons.mp hx with rfl | hx2
        · exact ⟨r, List.mem_cons_self r rs, hk, rfl, rfl⟩
        · obtain ⟨r2, hr2, hkr2⟩ := ih hrec x hx2
          exact ⟨r2, List.mem_cons_of_mem r hr2, hkr2⟩

lemma monthsPresent_nodup (xs : List Keyed) : (monthsPresent xs).Nodup :=
  List.Nodup.filter _ (List.nodup_range 13)

lemma mem_monthsPresent {xs : List Keyed} {x : Keyed} (hx : x ∈ xs) {m : Nat}
    (hm : x.2.1 = some m) (hlt : m < 13) : m ∈ monthsPresent xs := by
  unfold monthsPresent
  rw [List.mem_filter]
  refine ⟨List.mem_range.mpr hlt, List.any_eq_true.mpr ⟨x, hx, ?_⟩⟩
  rw [hm]
  exact beq_self_eq_true (some m)

lemma transform_data_ok {rs : List RawRecord} {rows : List AggRow}
    (h : transform_data rs = .ok rows) :
    ∃ xs, keyedRecords rs = .ok xs ∧ rows = pivotRows xs := by
  unfold transform_data at h
  cases hk : keyedRecords rs with
  | error e => rw [hk] at h; cases h
  | ok xs =>
    rw [hk] at h
    simp only [Except.map, Except.ok.injEq] at h
    exact ⟨xs, rfl, h.symm⟩

lemma mem_pivotRows {xs : List Keyed} {row : AggRow} (h : row ∈ pivotRows xs) :
    ∃ k, row = aggRowOf xs k ∧ ∃ x ∈ xs, x.1 = k ∧ x.2.1.isSome = true := by
  unfold pivotRows at h
  obtain ⟨k, hk, hrow⟩ := List.mem_map.mp h
  refine ⟨k, hrow.symm, ?_⟩
  unfold distinctKeys at hk
  have hk2 := List.mem_dedup.mp hk
  obtain ⟨x, hx, hxk⟩ := List.mem_filterMap.mp hk2
  by_cases hs : x.2.1.isSome = true
  · rw [if_pos hs] at hxk
    exact ⟨x, hx, Option.some.inj hxk, hs⟩
  · rw [if_neg hs] at hxk
    cases hxk

lemma keyed_filter_eq {rs : List RawRecord} {xs : List Keyed}
    (h : keyedRecords rs = .ok xs) (k : GroupKey) :
    ((xs.filter fun x => x.1 == k && x.2.1.isSome).map fun x => x.2.2) =
      ((rs.filter fun r =>
          decide ((keyOf r).toOption = some k) && (monat r).isSome).map betragVal) := by
  induction rs generalizing xs with
  | nil =>
    unfold keyedRecords at h
    simp only [Except.ok.injEq] at h
    subst h
    rfl
  | cons r rs ih =>
    unfold keyedRecords at h
    cases hk : keyOf r with
    | error e => rw [hk] at h; cases h
    | ok k2 =>
      rw [hk] at h
      cases hrec : keyedRecords rs with
      | error e => rw [hrec] at h; cases h
      | ok xs2 =>
        rw [hrec] at h
        simp only [Except.ok.injEq] at h
        subst h
        rw [List.filter_cons, List.filter_cons]
        have htop : (keyOf r).toOption = some k2 := by rw [hk]; rfl
        have hrw : (decide ((keyOf r).toOption = some k) && (monat r).isSome) =
            ((k2 == k) && (monat r).isSome) := by
          rw [htop]
          by_cases hkk : k2 = k
          · subst hkk
            simp
          · have h1 : (decide ((some k2 : Option GroupKey) = some k)) = false := by
              simp [hkk]
            have h2 : (k2 == k) = false := beq_eq_false_iff_ne.mpr hkk
            rw [h1, h2]
        rw [hrw]
        by_cases hc : ((k2 == k) && (monat r).isSome) = true
        · simp only [hc, if_true]
          rw [List.map_cons, List.map_cons, ih hrec]
        · simp only [hc, if_false]
          exact ih hrec

/-- C3 (amended): for every aggregated row, `ytd` equals the sum of the
emitted month-column values of that row (it is computed after pivoting), and
this equals the sum of the coerced amounts of exactly those input records of
the row's grouping key whose booking date parsed to a month.  Records of the
key with an unparsable date are dropped by the pivot and appear in no month
column and no `ytd`. -/
theorem C3_ytd_amended (rs : List RawRecord) (rows : List AggRow) (row : AggRow)
    (h : transform_data rs = .ok rows) (hrow : row ∈ rows) :
    row.ytd = (row.cells.map Prod.snd).sum ∧
    row.ytd = ((rs.filter fun r =>
        decide ((keyOf r).toOption = some row.key) && (monat r).isSome).map betragVal).sum := by
  obtain ⟨xs, hxs, hrows⟩ := transform_data_ok h
  subst hrows
  obtain ⟨k, hk, x, hx, hxk, hxsome⟩ := mem_pivotRows hrow
  subst hk
  have hcov : ∀ x2 ∈ xs, ∀ m, x2.2.1 = some m → m ∈ monthsPresent xs := by
    intro x2 hx2 m hm
    obtain ⟨r, _, _, hmon, _⟩ := keyedRecords_sound hxs x2 hx2
    exact mem_monthsPresent hx2 hm (monat_lt_13 (hmon.trans hm))
  have hsum := sum_cells_partition k (monthsPresent xs) (monthsPresent_nodup xs) xs hcov
  constructor
  · show ((monthsPresent xs).map fun m => cell xs k m).sum =
        (((monthsPresent xs).map fun m => (m, cell xs k m)).map Prod.snd).sum
    rw [List.map_map]
    rfl
  · have h2 := keyed_filter_eq hxs k
    show ((monthsPresent xs).map fun m => cell xs k m).sum = _
    rw [hsum]
    exact congrArg List.sum h2

/-- C3 (counterexample): `rFlbwJan` and `rFlbwBad` share one grouping key;
the bad record's date does not parse, so the single aggregated row has
`ytd = 10`, while the raw amounts of the records belonging to that grouping
key sum to `15`. -/
theorem C3_counterexample :
    transform_data [rFlbwJan, rFlbwBad] =
      .ok [{ key := kFlbwJan, cells := [(1, 10)], ytd := 10 }] ∧
    (([rFlbwJan, rFlbwBad].filter fun r =>
        decide ((keyOf r).toOption = some kFlbwJan)).map betragVal).sum = 15 ∧
    (10 : Int) ≠ 15 := by
  refine ⟨by decide, by decide, by decide⟩

theorem C3_witness :
    ({ key := kFlbwJan, cells := [(1, 10)], ytd := 10 } : AggRow).ytd =
      ((({ key := kFlbwJan, cells := [(1, 10)], ytd := 10 } : AggRow).cells.map
          Prod.snd).sum) ∧
    ({ key := kFlbwJan, cells := [(1, 10)], ytd := 10 } : AggRow).ytd =
      (([rFlbwJan, rFlbwBad].filter fun r =>
          decide ((keyOf r).toOption =
            some ({ key := kFlbwJan, cells := [(1, 10)], ytd := 10 } : AggRow).key) &&
          (monat r).isSome).map betragVal).sum :=
  C3_ytd_amended [rFlbwJan, rFlbwBad] [{ key := kFlbwJan, cells := [(1, 10)], ytd := 10 }]
    { key := kFlbwJan, cells := [(1, 10)], ytd := 10 } (by decide)
    (List.mem_singleton_self _)

/-- C5 (code bug): a PSP-classified record with a missing `Projektdefinition`
aborts the whole batch: the `Unterkategorie Name` concatenation of line 203
runs before the `fillna("Unbekannt")` of line 236 and raises `TypeError` on
`str + NaN`, contradicting the claimed never-fails sentinel behaviour (and the
app's own note that missing values are replaced by `"Unbekannt"`). -/
theorem C5_psp_missing_projekt :
    kategorie rPspNoProj = "PSP" ∧ rPspNoProj.projektdefinition = none ∧
    transform_data [rPspNoProj] =
      .error "TypeError: can only concatenate str (not float) to str" := by
  refine ⟨by decide, rfl, by decide⟩

lemma keyedRecords_cons (r : RawRecord) (rs : List RawRecord) :
    keyedRecords (r :: rs) =
      match keyOf r with
      | .error e => .error e
      | .ok k =>
        match keyedRecords rs with
        | .error e => .error e
        | .ok xs => .ok ((k, monat r, betragVal r) :: xs) := rfl

lemma pivotRows_none_cons (k : GroupKey) (a : Int) (xs : List Keyed) :
    pivotRows ((k, none, a) :: xs) = pivotRows xs := by
  have hmp : monthsPresent ((k, none, a) :: xs) = monthsPresent xs := by
    unfold monthsPresent
    apply List.filter_congr
    intro j _
    simp [List.any_cons]
  have hcell : ∀ k2 m, cell ((k, none, a) :: xs) k2 m = cell xs k2 m := by
    intro k2 m
    rw [cell_cons]
    simp
  have hdk : distinctKeys ((k, none, a) :: xs) = distinctKeys xs := by
    unfold distinctKeys
    simp [List.filterMap_cons]
  unfold pivotRows
  rw [hdk]
  apply List.map_congr_left
  intro k2 _
  unfold aggRowOf
  rw [hmp]
  simp only [hcell]

/-- C7: a record whose booking-date string does not parse gets a null date
(`monat = none`), contributes to no month bucket of the pivot — its amount
appears in no month column and no `ytd` — and the rest of the batch is
processed exactly as if the record were absent. -/
theorem C7_unparsable_date (r : RawRecord) (rs : List RawRecord) (s : String)
    (k : GroupKey) (hd : r.datum = some s) (hp : parseDate s = none)
    (hk : keyOf r = .ok k) :
    monat r = none ∧ transform_data (r :: rs) = transform_data rs := by
  have hm : monat r = none := by
    unfold monat
    rw [hd]
    simp [hp]
  refine ⟨hm, ?_⟩
  unfold transform_data
  rw [keyedRecords_cons, hk]
  cases hrec : keyedRecords rs with
  | error e => rfl
  | ok xs => simp [Except.map, hm, pivotRows_none_cons]

theorem C7_witness :
    monat rFeb31 = none ∧
    transform_data [rFeb31, rAnwesenheit] = transform_data [rAnwesenheit] :=
  C7_unparsable_date rFeb31 [rAnwesenheit] "31.02.2024" kFlbwJan rfl (by decide) rfl

lemma kategorie_anwesenheit_notBlank {r : RawRecord}
    (h : kategorie r = "Anwesenheit") : notBlank r.lohnartLangtext = true := by
  unfold kategorie at h
  split at h
  · exact absurd h (by decide)
  · split at h
    · exact absurd h (by decide)
    · split at h
      · exact absurd h (by decide)
      · split at h
        · rename_i hcond
          exact hcond
        · split at h
          · exact absurd h (by decide)
          · split at h
            · exact absurd h (by decide)
            · exact absurd h (by decide)

lemma status_of_notBlank {r : RawRecord} (h : notBlank r.lohnartLangtext = true) :
    status_logik r = "Arbeit Unproduktiv" := by
  unfold status_logik
  simp [h]

/-- C9: in every output table, a row classified `"Anwesenheit"` carries the
overwritten status `"Arbeit Unproduktiv"`: the classifier's Anwesenheit rule
and the status resolver's first rule test the same non-blank
`Lohnart-Langtext` condition on the same record. -/
theorem C9_anwesenheit_status (rs : List RawRecord) (rows : List AggRow) (row : AggRow)
    (h : transform_data rs = .ok rows) (hrow : row ∈ rows)
    (hkat : row.key.kategorie = "Anwesenheit") :
    row.key.textAnAbArt = "Arbeit Unproduktiv" := by
  obtain ⟨xs, hxs, hrows⟩ := transform_data_ok h
  subst hrows
  obtain ⟨k, hk, x, hx, hxk, _⟩ := mem_pivotRows hrow
  obtain ⟨r, hr, hkr, _, _⟩ := keyedRecords_sound hxs x hx
  obtain ⟨u, hu, hfill⟩ := keyOf_eq_ok (hxk ▸ hkr)
  have hkey : row.key = k := by rw [hk]; rfl
  rw [hkey, hfill] at hkat ⊢
  have hkat2 : kategorie r = "Anwesenheit" := hkat
  show status_logik r = "Arbeit Unproduktiv"
  exact status_of_notBlank (kategorie_anwesenheit_notBlank hkat2)

theorem C9_witness : rowAnwesenheit.key.textAnAbArt = "Arbeit Unproduktiv" :=
  C9_anwesenheit_status [rAnwesenheit] [rowAnwesenheit] rowAnwesenheit (by decide)
    (List.mem_singleton_self _) (by decide)

lemma keyedRecords_nil : keyedRecords [] = .ok [] := rfl

lemma range_filter_beq (n m : Nat) (h : m < n) :
    (List.range n).filter (fun j => m == j) = [m] := by
  induction n with
  | zero => omega
  | succ n ih =>
    rw [List.range_succ, List.filter_append]
    by_cases hm : m < n
    · rw [ih hm]
      have hne : (m == n) = false := beq_eq_false_iff_ne.mpr (by omega)
      have : (List.filter (fun j => m == j) [n]) = [] := by
        simp [List.filter, hne]
      rw [this, List.append_nil]
    · have hmn : m = n := by omega
      subst hmn
      have h1 : (List.range m).filter (fun j => m == j) = [] := by
        apply List.filter_eq_nil_iff.mpr
        intro a ha
        have : a < m := List.mem_range.mp ha
        simp only [beq_iff_eq, Bool.not_eq_true, decide_eq_true_eq]
        omega
      rw [h1]
      simp [List.filter]

lemma pivotRows_two_same (k : GroupKey) (m : Nat) (a b : Int) (hm : m < 13) :
    pivotRows [(k, some m, a), (k, some m, b)] =
      [{ key := k, cells := [(m, a + b)], ytd := a + b }] := by
  have hdk : distinctKeys [(k, some m, a), (k, some m, b)] = [k] := by
    unfold distinctKeys
    simp only [List.filterMap_cons, List.filterMap_nil, Option.isSome_some, if_true]
    rw [List.dedup_cons_of_mem (by simp [List.mem_dedup]),
      List.dedup_cons_of_not_mem (by simp)]
    rfl
  have hany : ∀ j : Nat,
      ([((k, some m, a) : Keyed), (k, some m, b)].any fun x => x.2.1 == some j) = (m == j) := by
    intro j
    simp only [List.any_cons, List.any_nil, Bool.or_false, Bool.or_self]
    rfl
  have hmp : monthsPresent [(k, some m, a), (k, some m, b)] = [m] := by
    unfold monthsPresent
    exact (List.filter_congr fun j _ => hany j).trans (range_filter_beq 13 m hm)
  have hcell : cell [(k, some m, a), (k, some m, b)] k m = a + b := by
    simp [cell, List.filter_cons]
  unfold pivotRows
  rw [hdk]
  show [aggRowOf [(k, some m, a), (k, some m, b)] k] = _
  unfold aggRowOf
  rw [hmp]
  simp [hcell]

/-- C6: missing grouping-key values become the sentinel `"Unbekannt"` before
grouping: a record with a null `EmpfKostenstelle` and one with the literal
string `"Unbekannt"` get the same grouping key and are merged into one single
aggregated row, whose single month cell and `ytd` carry the sum of both
amounts. -/
theorem C6_null_merges (r : RawRecord) (b : Option Int) (k : GroupKey) (m : Nat)
    (h0 : r.empfKostenstelle = none) (h1 : keyOf r = .ok k) (h2 : monat r = some m) :
    keyOf { r with empfKostenstelle := some "Unbekannt", betrag := b } = .ok k ∧
    transform_data [r, { r with empfKostenstelle := some "Unbekannt", betrag := b }] =
      .ok [{ key := k, cells := [(m, betragVal r + b.getD 0)],
             ytd := betragVal r + b.getD 0 }] := by
  have hkey2 : keyOf { r with empfKostenstelle := some "Unbekannt", betrag := b } = .ok k := by
    unfold keyOf at h1 ⊢
    cases hu : unterkategorieName r with
    | error e => rw [hu] at h1; cases h1
    | ok u =>
      rw [hu] at h1
      have hu2 : unterkategorieName { r with empfKostenstelle := some "Unbekannt", betrag := b } =
          .ok u := hu
      rw [hu2]
      simp only [Except.map, Except.ok.injEq] at h1 ⊢
      rw [← h1]
      unfold fillKey
      rw [h0]
      rfl
  have hm2 : monat { r with empfKostenstelle := some "Unbekannt", betrag := b } = some m := h2
  refine ⟨hkey2, ?_⟩
  have hkr : keyedRecords [r, { r with empfKostenstelle := some "Unbekannt", betrag := b }] =
      .ok [(k, some m, betragVal r),
           (k, some m, betragVal { r with empfKostenstelle := some "Unbekannt", betrag := b })] := by
    simp only [keyedRecords_cons, keyedRecords_nil, h1, hkey2, h2, hm2]
  unfold transform_data
  rw [hkr]
  simp only [Except.map]
  rw [pivotRows_two_same k m (betragVal r) _ (monat_lt_13 h2)]
  rfl

theorem C6_witness :
    keyOf { rNoKostenstelle with empfKostenstelle := some "Unbekannt", betrag := some 4 } =
      .ok kNoKostenstelle ∧
    transform_data [rNoKostenstelle,
        { rNoKostenstelle with empfKostenstelle := some "Unbekannt", betrag := some 4 }] =
      .ok [{ key := kNoKostenstelle, cells := [(2, 7)], ytd := 7 }] :=
  C6_null_merges rNoKostenstelle (some 4) kNoKostenstelle 2 rfl rfl rfl

/-- C10: the month bucket is the calendar month with the year discarded: two
records of one grouping key whose dates fall in the same month of different
years are summed into the same single month column (and the same `ytd`) of
one aggregated row. -/
theorem C10_year_discarded (r1 r2 : RawRecord) (k : GroupKey) (s1 s2 : String)
    (d1 d2 y1 y2 m : Nat)
    (hd1 : r1.datum = some s1) (hd2 : r2.datum = some s2)
    (hp1 : parseDate s1 = some (d1, m, y1)) (hp2 : parseDate s2 = some (d2, m, y2))
    (h1 : keyOf r1 = .ok k) (h2 : keyOf r2 = .ok k) :
    monat r1 = some m ∧ monat r2 = some m ∧
    transform_data [r1, r2] =
      .ok [{ key := k, cells := [(m, betragVal r1 + betragVal r2)],
             ytd := betragVal r1 + betragVal r2 }] := by
  have hm1 : monat r1 = some m := by
    unfold monat
    rw [hd1]
    simp [hp1]
  have hm2 : monat r2 = some m := by
    unfold monat
    rw [hd2]
    simp [hp2]
  refine ⟨hm1, hm2, ?_⟩
  have hkr : keyedRecords [r1, r2] =
      .ok [(k, some m, betragVal r1), (k, some m, betragVal r2)] := by
    simp only [keyedRecords_cons, keyedRecords_nil, h1, h2, hm1, hm2]
  unfold transform_data
  rw [hkr]
  simp only [Except.map]
  rw [pivotRows_two_same k m (betragVal r1) (betragVal r2) (monat_lt_13 hm1)]

theorem C10_witness :
    monat rMaerz2024 = some 3 ∧ monat rMaerz2025 = some 3 ∧
    transform_data [rMaerz2024, rMaerz2025] =
      .ok [{ key := kFlbwJan, cells := [(3, 12)], ytd := 12 }] :=
  C10_year_discarded rMaerz2024 rMaerz2025 kFlbwJan "15.03.2024" "20.03.2025"
    15 20 2024 2025 3 rfl rfl (by decide) (by decide) rfl rfl

lemma rows_filter_ident {rows : List WideRow} (hnd : (rows.map WideRow.ident).Nodup)
    {r : WideRow} (hr : r ∈ rows) :
    rows.filter (fun r2 => r2.ident == r.ident) = [r] := by
  induction rows with
  | nil => cases hr
  | cons h t ih =>
    simp only [List.map_cons, List.nodup_cons] at hnd
    obtain ⟨hnotin, hnd2⟩ := hnd
    rcases List.mem_cons.mp hr with rfl | hrt
    · rw [List.filter_cons]
      have hself : (r.ident == r.ident) = true := beq_self_eq_true _
      have hrest : t.filter (fun r2 => r2.ident == r.ident) = [] := by
        apply List.filter_eq_nil_iff.mpr
        intro a ha
        simp only [Bool.not_eq_true]
        apply beq_eq_false_iff_ne.mpr
        intro heq
        exact hnotin (heq ▸ List.mem_map_of_mem WideRow.ident ha)
      simp [hself, hrest]
    · rw [List.filter_cons]
      have hne : (h.ident == r.ident) = false := by
        apply beq_eq_false_iff_ne.mpr
        intro heq
        apply hnotin
        rw [heq]
        exact List.mem_map_of_mem WideRow.ident hrt
      simp [hne, ih hnd2 hrt]

lemma flatMap_single {α β : Type} (f : α → List β) (ls : List α) (a₀ : α)
    (hnd : ls.Nodup) (hm : a₀ ∈ ls) (hz : ∀ a ∈ ls, a ≠ a₀ → f a = []) :
    ls.flatMap f = f a₀ := by
  induction ls with
  | nil => cases hm
  | cons h t ih =>
    rw [List.flatMap_cons]
    rw [List.nodup_cons] at hnd
    have hzt : ∀ a ∈ t, a ≠ a₀ → f a = [] :=
      fun a ha => hz a (List.mem_cons_of_mem _ ha)
    rcases List.mem_cons.mp hm with rfl | hmt
    · have hrest : t.flatMap f = [] := by
        apply List.flatMap_eq_nil_iff.mpr
        intro a ha
        exact hzt a ha (fun heq => hnd.1 (heq ▸ ha))
      rw [hrest, List.append_nil]
    · have hne : h ≠ a₀ := fun heq => hnd.1 (heq ▸ hmt)
      rw [hz h (List.mem_cons_self h t) hne, List.nil_append]
      exact ih hnd.2 hmt hzt

lemma month_names_nodup : month_names_list.Nodup := by decide

/-- C8 (amended): on a wide table carrying all twelve month columns,
`load_data`'s melt emits exactly one long row per (wide row, month) pair —
twelve per row — whose month attribute carries its calendar position as an
ordered categorical code (Januar sorts before Februar although plain string
order says otherwise), and the single long row of a pair holds exactly the
wide row's original month value, so re-pivoting the long rows by month
reproduces every wide row. -/
theorem C8_melt_amended (t : WideTable) (r : WideRow) (m : String) (L : List LongRow)
    (hall : ∀ mn ∈ month_names_list, mn ∈ t.cols)
    (hnd : (t.rows.map WideRow.ident).Nodup)
    (hr : r ∈ t.rows) (hm : m ∈ month_names_list)
    (hmelt : load_data_melt t = .ok L) :
    L.length = 12 * t.rows.length ∧
    L.filter (fun l => l.ident == r.ident && l.monat == m) =
      [{ ident := r.ident, monat := m, monatCode := monthCode m,
         wert := (r.vals.lookup m).getD 0 }] ∧
    (∀ l ∈ L, l.monatCode = monthCode l.monat) ∧
    monthCode "Januar" < monthCode "Februar" ∧
    lexLt "Februar".data "Januar".data = true := by
  have hcond : (month_names_list.all fun mn => t.cols.contains mn) = true := by
    rw [List.all_eq_true]
    intro mn hmn
    exact List.elem_iff.mpr (hall mn hmn)
  have hL : L = month_names_list.flatMap fun mn => t.rows.map (meltRow mn) := by
    unfold load_data_melt at hmelt
    rw [if_pos hcond] at hmelt
    exact (Except.ok.inj hmelt).symm
  subst hL
  refine ⟨?_, ?_, ?_, by decide, by decide⟩
  · rw [List.length_flatMap]
    have hlen : (List.map (List.length ∘ fun mn => List.map (meltRow mn) t.rows)
        month_names_list) = List.map (fun _ => t.rows.length) month_names_list := by
      apply List.map_congr_left
      intro mn _
      simp [Function.comp]
    rw [hlen, List.map_const', List.sum_replicate, smul_eq_mul]
    rfl
  · rw [List.filter_flatMap]
    rw [flatMap_single _ month_names_list m month_names_nodup hm ?hz]
    case hz =>
      intro mn hmn hne
      apply List.filter_eq_nil_iff.mpr
      intro l hl
      obtain ⟨r2, hr2, hlr⟩ := List.mem_map.mp hl
      subst hlr
      simp only [Bool.not_eq_true, Bool.and_eq_false_iff]
      right
      exact beq_eq_false_iff_ne.mpr hne
    rw [List.filter_map]
    have hcongr : ∀ r2 ∈ t.rows,
        ((fun l : LongRow => l.ident == r.ident && l.monat == m) ∘ meltRow m) r2 =
        (r2.ident == r.ident) := by
      intro r2 _
      simp [Function.comp, meltRow]
    rw [List.filter_congr hcongr, rows_filter_ident hnd hr]
    rfl
  · intro l hl
    obtain ⟨mn, hmn, hl2⟩ := List.mem_flatMap.mp hl
    obtain ⟨r2, hr2, hlr⟩ := List.mem_map.mp hl2
    subst hlr
    rfl

/-- C8 (counterexample): the transform emits only the months present in the
input, but `load_data`'s melt lists all twelve months as `value_vars`; on a
wide aggregated table with only a `Januar` column it raises `KeyError` and
produces no long rows at all, instead of one long row per (row, month) pair
with zero-fill. -/
theorem C8_counterexample :
    load_data_melt tJanuarOnly =
      .error "KeyError: value_vars are not present in the DataFrame" ∧
    (load_data_melt tJanuarOnly).toOption = none := ⟨rfl, rfl⟩

theorem C8_witness :
    L12.length = 12 * t12.rows.length ∧
    L12.filter (fun l => l.ident == r12.ident && l.monat == "Februar") =
      [{ ident := r12.ident, monat := "Februar", monatCode := monthCode "Februar",
         wert := (r12.vals.lookup "Februar").getD 0 }] := by
  have h := C8_melt_amended t12 r12 "Februar" L12 (by decide) (by decide)
    (List.mem_singleton_self _) (by decide) (by decide)
  exact ⟨h.1, h.2.1⟩

example : extract_number "abc12345678xyz" 8 = "12345678" := by decide
example : extract_number "abc123456xyz" 8 = "Unbekannte Kontierungsnummer" := by decide
example : extract_number "9991234567" 7 = "1234567" := by decide
example : find_keyword "abwesend wegen Urlaub" = "ABW" := by decide
example : find_keyword "Zebra" = "XXX" := by decide
example : parseDate "05.01.2024" = some (5, 1, 2024) := by decide
example : parseDate "31.02.2024" = none := by decide
example : fullmatch2ddd "2004" = true := by decide
example : fullmatch2ddd "0100" = false := by decide
example : kategorie rFlbwJan = "FLBW" := by decide
example : monat rFlbwJan = some 1 := by decide
example : status_logik rFlbwJan = "Arbeit" := by decide
example : keyOf rFlbwJan = .ok kFlbwJan := by decide
example : transform_data [rFlbwJan] =
    .ok [{ key := kFlbwJan, cells := [(1, 10)], ytd := 10 }] := by decide
example : load_data_melt t12 = .ok L12 := by decide
example : load_data_melt tJanuarOnly =
    .error "KeyError: value_vars are not present in the DataFrame" := by decide
example : transform_data [rPspNoProj] =
    .error "TypeError: can only concatenate str (not float) to str" := by decide
example : keyOf rAnwesenheit = .ok kAnwesenheit := by decide
example : transform_data [rAnwesenheit] = .ok [rowAnwesenheit] := by decide
